import Mathlib

/-!
Verification of the GraphQL OpenAI worker (`src/index.js`).

The worker exposes a GraphQL schema with a `health` query and a `chat`
mutation that forwards to the OpenAI chat-completion API, plus an HTTP
dispatch layer (`fetch`) routing by path/method and attaching CORS headers.

Numeric GraphQL `Float` arguments are modelled as `Rat`: the resolver only
compares them for exact (in)equality against the literal defaults `1.0` and
`0.0` and passes them through otherwise, so no floating-point rounding is
involved in any modelled computation.
-/

namespace Worker

/-- A chat message `{role, content}` (schema types `Message`/`MessageInput`). -/
structure Message where
  role : String
  content : String
deriving DecidableEq, Repr

/-- Upstream token-accounting object (schema type `Usage`). -/
structure Usage where
  prompt_tokens : Int
  completion_tokens : Int
  total_tokens : Int
deriving DecidableEq, Repr

/-- One element of the upstream `choices` array; only its `message` is read. -/
structure Choice where
  message : Message
deriving DecidableEq, Repr

/-- The upstream chat-completion response shape read by the resolver.
`choices := none` models a response object with no `choices` property at all
(a JavaScript `undefined` read), `some []` an empty array. -/
structure Completion where
  id : String
  object : String
  created : Int
  model : String
  choices : Option (List Choice)
  usage : Option Usage
deriving DecidableEq, Repr

/-- The resolver's arguments after GraphQL default application
(lines 54-62 of `src/index.js`).  The three tunables are `Option Rat`:
`none` models the JavaScript value `undefined` (which the resolver guards
against with `!== undefined`), `some v` a supplied number. -/
structure ChatArgs where
  messages : List Message
  model : String
  temperature : Rat
  max_tokens : Int
  top_p : Option Rat
  frequency_penalty : Option Rat
  presence_penalty : Option Rat
deriving DecidableEq, Repr

/-- The schema defaults declared for the `chat` mutation (lines 40-45). -/
def defaultArgs (messages : List Message) : ChatArgs :=
  { messages := messages
    model := "gpt-3.5-turbo"
    temperature := 7/10
    max_tokens := 1000
    top_p := some 1
    frequency_penalty := some 0
    presence_penalty := some 0 }

/-- The outbound payload `requestParams` (lines 76-92).  A `none` in an
optional field means the key is absent from the payload object. -/
structure RequestParams where
  model : String
  messages : List Message
  temperature : Rat
  max_tokens : Int
  top_p : Option Rat
  frequency_penalty : Option Rat
  presence_penalty : Option Rat
deriving DecidableEq, Repr

/-- The guard `v !== undefined && v !== d` of each optional-field `if`
(lines 84, 87, 90). -/
def differsFromDefault (v : Option Rat) (d : Rat) : Bool :=
  match v with
  | none => false
  | some x => x ≠ d

/-- Lines 76-92: build `requestParams` with `model`, `messages`,
`temperature`, `max_tokens` always present, then conditionally assign
`top_p`, `frequency_penalty`, `presence_penalty`. -/
def buildRequestParams (a : ChatArgs) : RequestParams :=
  let base : RequestParams :=
    { model := a.model
      messages := a.messages
      temperature := a.temperature
      max_tokens := a.max_tokens
      top_p := none
      frequency_penalty := none
      presence_penalty := none }
  let p1 := if differsFromDefault a.top_p 1 then { base with top_p := a.top_p } else base
  let p2 := if differsFromDefault a.frequency_penalty 0 then
              { p1 with frequency_penalty := a.frequency_penalty } else p1
  if differsFromDefault a.presence_penalty 0 then
    { p2 with presence_penalty := a.presence_penalty } else p2

/-- The worker environment: `env.OPENAI_API_KEY` is a string secret or
absent (`none` models JavaScript `undefined`). -/
structure Env where
  OPENAI_API_KEY : Option String
deriving DecidableEq, Repr

/-- JavaScript truthiness of a string-or-undefined value: `undefined` and
the empty string are falsy (the `!env.OPENAI_API_KEY` check, line 65). -/
def strTruthy : Option String → Bool
  | none => false
  | some s => s ≠ ""

/-- The outcome of `await openai.chat.completions.create(...)` (line 95):
either a resolved completion, a thrown `OpenAI.APIError`, or any other
thrown error (network, serialization, ...), each carrying its `.message`. -/
inductive UpstreamOutcome where
  | success (completion : Completion)
  | apiError (message : String)
  | failure (message : String)
deriving DecidableEq, Repr

/-- The GraphQL output type `ChatResponse` (lines 99-113). -/
structure ChatResponse where
  id : String
  object : String
  created : Int
  model : String
  message : Message
  usage : Option Usage
deriving DecidableEq, Repr

/-- What the resolver does from its caller's perspective: return a
`ChatResponse`, or throw an `Error` with the given message (which the
GraphQL engine turns into a GraphQL error entry). -/
inductive ChatResult where
  | ok (response : ChatResponse)
  | error (message : String)
deriving DecidableEq, Repr

/-- The `.message` of the TypeError thrown by `completion.choices[0]` when
`choices` is absent (reading index `0` of `undefined`). -/
def readZeroOfUndefined : String := "Cannot read properties of undefined (reading '0')"

/-- The `.message` of the TypeError thrown by `choice.message` when
`choices` is the empty array, so `choice` is `undefined`. -/
def readMessageOfUndefined : String := "Cannot read properties of undefined (reading 'message')"

/-- The `chat` resolver (lines 54-121).  `upstream` stands for the effect of
`openai.chat.completions.create` on the payload it is given; the `try`
block's `catch` (lines 114-120) wraps an `OpenAI.APIError` as
`"OpenAI API Error: <message>"` and every other thrown error as
`"Failed to call OpenAI API: <message>"`.  The missing-key throw (line 66)
happens before the `try` and before any upstream call. -/
def chat (args : ChatArgs) (env : Env) (upstream : RequestParams → UpstreamOutcome) :
    ChatResult :=
  if !strTruthy env.OPENAI_API_KEY then
    .error "OpenAI API key is not configured"
  else
    match upstream (buildRequestParams args) with
    | .apiError m => .error ("OpenAI API Error: " ++ m)
    | .failure m => .error ("Failed to call OpenAI API: " ++ m)
    | .success c =>
      match c.choices with
      | none => .error ("Failed to call OpenAI API: " ++ readZeroOfUndefined)
      | some [] => .error ("Failed to call OpenAI API: " ++ readMessageOfUndefined)
      | some (choice :: _) =>
        .ok { id := c.id
              object := c.object
              created := c.created
              model := c.model
              message := { role := choice.message.role, content := choice.message.content }
              usage := c.usage.map (fun u =>
                { prompt_tokens := u.prompt_tokens
                  completion_tokens := u.completion_tokens
                  total_tokens := u.total_tokens }) }

/-- The `health` resolver (line 52): a constant. -/
def health : Unit → String := fun _ => "GraphQL OpenAI Service is running!"

/-! ## JSON values and the HTTP dispatch layer -/

/-- JSON values, enough to describe every body the worker builds. -/
inductive JVal where
  | jnull
  | jstr (s : String)
  | jarr (elems : List JVal)
  | jobj (fields : List (String × JVal))
deriving Repr

/-- The parsed POST body `{query, variables, operationName}` (line 153);
absent properties destructure to `undefined`, modelled as `none`. -/
structure GqlBody where
  query : Option String
  variableValues : Option JVal
  operationName : Option String

/-- The outcome of `await graphql({...})` (lines 155-162): the promise
either resolves with the execution-result envelope (already a JSON value
after `JSON.stringify`) or rejects with an error carrying `.message`. -/
inductive EngineOutcome where
  | resolved (result : JVal)
  | thrown (message : String)

/-- An inbound request as the handler reads it: method, `url.pathname`, and
the result of `await request.json()` (`Except.error m` models a rejected
parse of a malformed body, with the error's `.message`). -/
structure WorkerRequest where
  method : String
  pathname : String
  jsonBody : Except String GqlBody

/-- A response body: `empty` for `new Response(null, ...)`, `playground`
for the static console HTML (content non-core, never inspected by a
claim), `json v` for `JSON.stringify` of `v`. -/
inductive RespBody where
  | empty
  | playground
  | json (v : JVal)

/-- An HTTP response: status, headers (as name-value pairs), body. -/
structure WorkerResponse where
  status : Nat
  headers : List (String × String)
  body : RespBody

/-- Model of `Headers.set`: replace any existing value for `name` with `value`. -/
def setHeader (name value : String) (hs : List (String × String)) :
    List (String × String) :=
  hs.filter (fun h => h.1 ≠ name) ++ [(name, value)]

/-- Function `setCorsHeaders` (lines 125-130): set the three CORS headers on a
response. -/
def setCorsHeaders (r : WorkerResponse) : WorkerResponse :=
  let h1 := setHeader "Access-Control-Allow-Origin" "*" r.headers
  let h2 := setHeader "Access-Control-Allow-Methods" "GET, POST, OPTIONS" h1
  let h3 := setHeader "Access-Control-Allow-Headers" "Content-Type, Authorization" h2
  { r with headers := h3 }

/-! ### `new Date(ms).toISOString()` (host API, modelled from ECMAScript)

The worker calls `new Date().toISOString()` (line 182).  ECMAScript
specifies the result as the UTC broken-down time of the epoch-millisecond
clock reading, rendered as `YYYY-MM-DDTHH:mm:ss.sssZ`.  We model the clock
reading as a `Nat` parameter of the handler and implement the rendering:
days since the epoch are converted to a civil date with the standard
Gregorian era decomposition (equivalent to ECMAScript's `YearFromTime` /
`MonthFromTime` / `DateFromTime`). -/

/-- Civil (year, month, day) of a day count since 1970-01-01 (Gregorian,
era decomposition over 400-year cycles). -/
def civilFromDays (days : Nat) : Nat × Nat × Nat :=
  let z := days + 719468
  let era := z / 146097
  let doe := z % 146097
  let yoe := (doe - doe / 1460 + doe / 36524 - doe / 146096) / 365
  let doy := doe - (365 * yoe + yoe / 4 - yoe / 100)
  let mp := (5 * doy + 2) / 153
  let d := doy - (153 * mp + 2) / 5 + 1
  let m := if mp < 10 then mp + 3 else mp - 9
  (yoe + era * 400 + (if m ≤ 2 then 1 else 0), m, d)

/-- The decimal digit character for `n % 10`. -/
def digitChar (n : Nat) : Char := Char.ofNat (48 + n % 10)

/-- Two-digit zero-padded rendering of `n < 100`. -/
def pad2 (n : Nat) : String := String.mk [digitChar (n / 10), digitChar n]

/-- Three-digit zero-padded rendering of `n < 1000`. -/
def pad3 (n : Nat) : String :=
  String.mk [digitChar (n / 100), digitChar (n / 10), digitChar n]

/-- Four-digit zero-padded rendering of `n < 10000`. -/
def pad4 (n : Nat) : String :=
  String.mk [digitChar (n / 1000), digitChar (n / 100), digitChar (n / 10), digitChar n]

/-- Model of `new Date(ms).toISOString()` for a non-negative epoch-millisecond
reading: `YYYY-MM-DDTHH:mm:ss.sssZ`. -/
def toISOString (ms : Nat) : String :=
  let ymd := civilFromDays (ms / 86400000)
  let tod := ms % 86400000
  pad4 ymd.1 ++ "-" ++ pad2 ymd.2.1 ++ "-" ++ pad2 ymd.2.2 ++ "T" ++
    pad2 (tod / 3600000) ++ ":" ++ pad2 (tod % 3600000 / 60000) ++ ":" ++
    pad2 (tod % 60000 / 1000) ++ "." ++ pad3 (tod % 1000) ++ "Z"

/-- Numeric value of a digit character. -/
def digitVal (c : Char) : Nat := c.toNat - 48

/-- Syntactic ISO-8601 validity in the extended UTC format the worker's
timestamp uses: exactly `YYYY-MM-DDTHH:mm:ss.sssZ` with all digit positions
decimal digits, the fixed punctuation, and the month, day, hour, minute and
second fields inside their calendar ranges. -/
def isValidISO8601 (s : String) : Bool :=
  match s.data with
  | [y1, y2, y3, y4, s1, m1, m2, s2, d1, d2, t, h1, h2, c1, n1, n2, c2, e1, e2, p, f1, f2, f3, z] =>
    y1.isDigit && y2.isDigit && y3.isDigit && y4.isDigit && s1 = '-' &&
    m1.isDigit && m2.isDigit && s2 = '-' && d1.isDigit && d2.isDigit &&
    t = 'T' && h1.isDigit && h2.isDigit && c1 = ':' &&
    n1.isDigit && n2.isDigit && c2 = ':' && e1.isDigit && e2.isDigit &&
    p = '.' && f1.isDigit && f2.isDigit && f3.isDigit && z = 'Z' &&
    1 ≤ digitVal m1 * 10 + digitVal m2 && digitVal m1 * 10 + digitVal m2 ≤ 12 &&
    1 ≤ digitVal d1 * 10 + digitVal d2 && digitVal d1 * 10 + digitVal d2 ≤ 31 &&
    digitVal h1 * 10 + digitVal h2 ≤ 23 && digitVal n1 * 10 + digitVal n2 ≤ 59 &&
    digitVal e1 * 10 + digitVal e2 ≤ 59
  | _ => false

/-- The HTTP-400 error body `{errors: [{message: m}]}` (lines 168-170). -/
def errorsBody (m : String) : JVal :=
  .jobj [("errors", .jarr [.jobj [("message", .jstr m)]])]

/-- The health body `{status: "ok", timestamp: ...}` (lines 180-183). -/
def healthBody (timestamp : String) : JVal :=
  .jobj [("status", .jstr "ok"), ("timestamp", .jstr timestamp)]

/-- The default body describing the endpoints (lines 189-194). -/
def endpointsBody : JVal :=
  .jobj [("message", .jstr "GraphQL OpenAI Service"),
         ("endpoints", .jobj [("graphql", .jstr "/graphql"), ("health", .jstr "/health")])]

/-- The `fetch` handler (lines 133-198).  `engine` stands for the effect of
`await graphql({...})` on the parsed body; `nowMs` is the epoch-millisecond
clock reading taken by `new Date()`. -/
def workerFetch (req : WorkerRequest) (engine : GqlBody → EngineOutcome)
    (nowMs : Nat) : WorkerResponse :=
  if req.method = "OPTIONS" then
    setCorsHeaders { status := 200, headers := [], body := .empty }
  else if req.pathname = "/graphql" ∧ req.method = "GET" then
    setCorsHeaders { status := 200, headers := [("Content-Type", "text/html")],
                     body := .playground }
  else if req.pathname = "/graphql" ∧ req.method = "POST" then
    match req.jsonBody with
    | .error m =>
      setCorsHeaders { status := 400, headers := [("Content-Type", "application/json")],
                       body := .json (errorsBody m) }
    | .ok b =>
      match engine b with
      | .resolved r =>
        setCorsHeaders { status := 200, headers := [("Content-Type", "application/json")],
                         body := .json r }
      | .thrown m =>
        setCorsHeaders { status := 400, headers := [("Content-Type", "application/json")],
                         body := .json (errorsBody m) }
  else if req.pathname = "/health" then
    setCorsHeaders { status := 200, headers := [("Content-Type", "application/json")],
                     body := .json (healthBody (toISOString nowMs)) }
  else
    setCorsHeaders { status := 200, headers := [("Content-Type", "application/json")],
                     body := .json endpointsBody }

/-- Modelled from the spec: the GraphQL engine itself (the `graphql`
package, not under `src/`) catches a resolver throw and resolves with the
normal result envelope whose `errors` array carries the thrown message, so
resolver-level failures never reject the `graphql({...})` promise. -/
def engineOfResolverError (m : String) : EngineOutcome :=
  .resolved (.jobj [("data", .jnull),
                    ("errors", .jarr [.jobj [("message", .jstr m)]])])

/-! ## Concrete example values (used to instantiate theorems with hypotheses) -/

/-- A one-element conversation. -/
def msgsEx : List Message := [{ role := "user", content := "hi" }]

/-- Example resolver arguments: the schema defaults applied to `msgsEx`. -/
def argsEx : ChatArgs := defaultArgs msgsEx

/-- An environment with a configured key. -/
def envEx : Env := { OPENAI_API_KEY := some "sk-test" }

/-- An environment with no key configured. -/
def envNoKey : Env := { OPENAI_API_KEY := none }

/-- An example upstream completion with one choice and no usage. -/
def completionEx : Completion :=
  { id := "chatcmpl-1"
    object := "chat.completion"
    created := 1760140800
    model := "gpt-3.5-turbo-0125"
    choices := some [{ message := { role := "assistant", content := "hello" } }]
    usage := none }

/-- An example upstream completion whose `choices` array is empty. -/
def completionNoChoices : Completion :=
  { completionEx with choices := some [] }

/-- An example GraphQL engine (its behavior is irrelevant to the branches it
is used on). -/
def engineEx : GqlBody → EngineOutcome := fun _ => .thrown "unused"

/-- A POST to `/graphql` whose body fails to parse as JSON. -/
def postMalformedReq : WorkerRequest :=
  { method := "POST", pathname := "/graphql",
    jsonBody := .error "Unexpected end of JSON input" }

/-- A POST to `/graphql` with a well-formed body. -/
def postOkReq (b : GqlBody) : WorkerRequest :=
  { method := "POST", pathname := "/graphql", jsonBody := .ok b }

/-- An empty parsed GraphQL body. -/
def gqlBodyEx : GqlBody :=
  { query := some "mutation { chat }", variableValues := none, operationName := none }

/-- An OPTIONS request to a path that is neither `/graphql` nor `/health`. -/
def optionsOtherReq : WorkerRequest :=
  { method := "OPTIONS", pathname := "/nope", jsonBody := .error "unused" }

/-- A GET request to `/health`. -/
def healthReq : WorkerRequest :=
  { method := "GET", pathname := "/health", jsonBody := .error "unused" }

end Worker

namespace Worker

/-! ## Claim theorems -/

/-- C1: for every invocation of `chat` that reaches the upstream call, the
upstream payload contains `model`, `messages`, `temperature`, `max_tokens`
unconditionally, and contains `top_p` (resp. `frequency_penalty`,
`presence_penalty`) with value `v` exactly when the argument was supplied as
`v` with `v ≠ 1.0` (resp. `v ≠ 0.0`); in particular the schema-default
arguments omit all three, and `top_p = 0.9` is included as `0.9`. -/
theorem chat_upstream_payload_fields (a : ChatArgs) :
    (buildRequestParams a).model = a.model ∧
    (buildRequestParams a).messages = a.messages ∧
    (buildRequestParams a).temperature = a.temperature ∧
    (buildRequestParams a).max_tokens = a.max_tokens ∧
    (∀ v : Rat, (buildRequestParams a).top_p = some v ↔ a.top_p = some v ∧ v ≠ 1) ∧
    (∀ v : Rat, (buildRequestParams a).frequency_penalty = some v ↔
      a.frequency_penalty = some v ∧ v ≠ 0) ∧
    (∀ v : Rat, (buildRequestParams a).presence_penalty = some v ↔
      a.presence_penalty = some v ∧ v ≠ 0) ∧
    (buildRequestParams (defaultArgs a.messages)).top_p = none ∧
    (buildRequestParams (defaultArgs a.messages)).frequency_penalty = none ∧
    (buildRequestParams (defaultArgs a.messages)).presence_penalty = none ∧
    (buildRequestParams { defaultArgs a.messages with top_p := some (9/10) }).top_p
      = some (9/10) := by
  obtain ⟨msgs, mdl, temp, mt, tp, fp, pp⟩ := a
  simp only [buildRequestParams, differsFromDefault, defaultArgs]
  cases tp <;> cases fp <;> cases pp <;>
    simp_all <;> split_ifs <;>
    first
    | rfl
    | assumption
    | (norm_num at *; try tauto)

/-- C9: the `messages` field of the upstream payload is exactly the input
list, unchanged and in order (this holds for every messages list, in
particular every non-empty one). -/
theorem chat_messages_preserved (a : ChatArgs) :
    (buildRequestParams a).messages = a.messages := by
  simp only [buildRequestParams]
  split_ifs <;> rfl

/-- C8: the `health` resolver returns one fixed string on every invocation
and, being a total constant function, never produces an error. -/
theorem health_constant (u : Unit) :
    health u = "GraphQL OpenAI Service is running!" := rfl

/-- C2: when the upstream call fails, a structured `OpenAI.APIError` becomes
the GraphQL error `"OpenAI API Error: <message>"` and any other failure
becomes `"Failed to call OpenAI API: <message>"`; in both cases `chat`
returns an error value (the thrown `Error` the engine converts to a GraphQL
error entry), never an uncaught fault. -/
theorem chat_upstream_failure_wrapped (args : ChatArgs) (env : Env)
    (upstream : RequestParams → UpstreamOutcome)
    (hkey : strTruthy env.OPENAI_API_KEY = true) :
    (∀ m, upstream (buildRequestParams args) = .apiError m →
      chat args env upstream = .error ("OpenAI API Error: " ++ m)) ∧
    (∀ m, upstream (buildRequestParams args) = .failure m →
      chat args env upstream = .error ("Failed to call OpenAI API: " ++ m)) := by
  constructor <;> intro m hm <;> simp [chat, hkey, hm]

/-- Witness for C2: with a configured key and an upstream that throws a
structured API error with message `"quota"`, `chat` returns the wrapped
GraphQL error. -/
theorem chat_upstream_failure_wrapped_witness :
    chat argsEx envEx (fun _ => .apiError "quota")
      = .error ("OpenAI API Error: " ++ "quota") :=
  (chat_upstream_failure_wrapped argsEx envEx (fun _ => .apiError "quota")
    (by decide)).1 "quota" rfl

/-- C3: when the upstream call succeeds and `choices` has a first element,
the result copies `id`, `object`, `created`, `model` unchanged, its
`message` is the first choice's `{role, content}`, and its `usage` is the
upstream usage's three token counts when present and `null` (`none`) when
the upstream omits it. -/
theorem chat_success_mapping (args : ChatArgs) (env : Env)
    (upstream : RequestParams → UpstreamOutcome) (c : Completion)
    (choice : Choice) (rest : List Choice)
    (hkey : strTruthy env.OPENAI_API_KEY = true)
    (hup : upstream (buildRequestParams args) = .success c)
    (hch : c.choices = some (choice :: rest)) :
    chat args env upstream =
      .ok { id := c.id, object := c.object, created := c.created,
            model := c.model, message := choice.message, usage := c.usage } := by
  have husage : c.usage.map (fun u : Usage =>
      ({ prompt_tokens := u.prompt_tokens, completion_tokens := u.completion_tokens,
         total_tokens := u.total_tokens } : Usage)) = c.usage := by
    cases c.usage <;> rfl
  simp [chat, hkey, hup, hch, husage]

/-- Witness for C3: a concrete successful completion with one choice and no
usage maps to the corresponding `ChatResponse` with `usage = none`. -/
theorem chat_success_mapping_witness :
    chat argsEx envEx (fun _ => .success completionEx)
      = .ok { id := completionEx.id, object := completionEx.object,
              created := completionEx.created, model := completionEx.model,
              message := { role := "assistant", content := "hello" },
              usage := none } :=
  chat_success_mapping argsEx envEx (fun _ => .success completionEx)
    completionEx { message := { role := "assistant", content := "hello" } } []
    (by decide) rfl rfl

/-- C4: with no configured credential, `chat` fails with the message
`"OpenAI API key is not configured"` — which contains the substring
`"API key"` — and the upstream callable is never consulted: the result is
the same for every upstream behavior. -/
theorem chat_missing_key (args : ChatArgs) (env : Env)
    (hkey : strTruthy env.OPENAI_API_KEY = false) :
    (∀ upstream, chat args env upstream = .error "OpenAI API key is not configured") ∧
    "API key".data <:+: "OpenAI API key is not configured".data := by
  refine ⟨fun upstream => by simp [chat, hkey], ?_⟩
  exact ⟨"OpenAI ".data, " is not configured".data, rfl⟩

/-- Witness for C4: with `OPENAI_API_KEY` absent from the environment, the
configuration error is returned for a concrete upstream. -/
theorem chat_missing_key_witness :
    chat argsEx envNoKey (fun _ => .success completionEx)
      = .error "OpenAI API key is not configured" :=
  (chat_missing_key argsEx envNoKey rfl).1 (fun _ => .success completionEx)

/-- C10: when the upstream call succeeds but the completion's `choices`
array is empty or absent, `chat` neither returns a partial response nor
crashes: the resulting property access failure is caught by the resolver's
`catch` and surfaced as an error whose message begins with
`"Failed to call OpenAI API: "`. -/
theorem chat_empty_choices_caught (args : ChatArgs) (env : Env)
    (upstream : RequestParams → UpstreamOutcome) (c : Completion)
    (hkey : strTruthy env.OPENAI_API_KEY = true)
    (hup : upstream (buildRequestParams args) = .success c)
    (hch : c.choices = none ∨ c.choices = some []) :
    ∃ m, chat args env upstream = .error ("Failed to call OpenAI API: " ++ m) := by
  rcases hch with hch | hch
  · exact ⟨readZeroOfUndefined, by simp [chat, hkey, hup, hch]⟩
  · exact ⟨readMessageOfUndefined, by simp [chat, hkey, hup, hch]⟩

/-- Witness for C10: a concrete completion with an empty `choices` array
yields the wrapped transport-style error. -/
theorem chat_empty_choices_caught_witness :
    ∃ m, chat argsEx envEx (fun _ => .success completionNoChoices)
      = .error ("Failed to call OpenAI API: " ++ m) :=
  chat_empty_choices_caught argsEx envEx (fun _ => .success completionNoChoices)
    completionNoChoices (by decide) rfl (Or.inr rfl)

/-! ### Helper lemmas for the dispatch layer -/

theorem setCorsHeaders_status (r : WorkerResponse) :
    (setCorsHeaders r).status = r.status := rfl

theorem setCorsHeaders_body (r : WorkerResponse) :
    (setCorsHeaders r).body = r.body := rfl

theorem setCorsHeaders_mem (r : WorkerResponse) :
    ("Access-Control-Allow-Origin", "*") ∈ (setCorsHeaders r).headers ∧
    ("Access-Control-Allow-Methods", "GET, POST, OPTIONS") ∈ (setCorsHeaders r).headers ∧
    ("Access-Control-Allow-Headers", "Content-Type, Authorization")
      ∈ (setCorsHeaders r).headers := by
  simp [setCorsHeaders, setHeader, List.mem_filter, List.mem_append]

theorem digitChar_isDigit (n : Nat) : (digitChar n).isDigit = true := by
  unfold digitChar
  have h : n % 10 < 10 := Nat.mod_lt _ (by norm_num)
  interval_cases h10 : (n % 10) <;> rfl

theorem digitVal_digitChar (n : Nat) : digitVal (digitChar n) = n % 10 := by
  unfold digitChar digitVal
  have h : n % 10 < 10 := Nat.mod_lt _ (by norm_num)
  interval_cases h10 : (n % 10) <;> rfl

theorem civilFromDays_bounds (days : Nat) :
    1 ≤ (civilFromDays days).2.1 ∧ (civilFromDays days).2.1 ≤ 12 ∧
    1 ≤ (civilFromDays days).2.2 ∧ (civilFromDays days).2.2 ≤ 31 := by
  simp only [civilFromDays]
  split <;> omega

set_option maxHeartbeats 1000000 in
theorem toISOString_valid (ms : Nat) : isValidISO8601 (toISOString ms) = true := by
  obtain ⟨h1, h2, h3, h4⟩ := civilFromDays_bounds (ms / 86400000)
  have hh : ms % 86400000 / 3600000 < 24 := by omega
  have hmi : ms % 86400000 % 3600000 / 60000 < 60 := by omega
  have hss : ms % 86400000 % 60000 / 1000 < 60 := by omega
  simp only [toISOString, pad4, pad3, pad2, String.data_append, isValidISO8601]
  simp only [List.cons_append, List.nil_append]
  simp only [digitChar_isDigit, digitVal_digitChar, decide_eq_true_eq, Bool.and_eq_true,
    decide_True, Bool.true_and, Bool.and_true]
  omega

/-! ### Dispatch-layer claim theorems -/

/-- C7: every response of the `fetch` handler — all paths, all methods,
success or failure alike — carries the three CORS headers set by
`setCorsHeaders`. -/
theorem workerFetch_cors (req : WorkerRequest) (engine : GqlBody → EngineOutcome)
    (nowMs : Nat) :
    ("Access-Control-Allow-Origin", "*") ∈ (workerFetch req engine nowMs).headers ∧
    ("Access-Control-Allow-Methods", "GET, POST, OPTIONS")
      ∈ (workerFetch req engine nowMs).headers ∧
    ("Access-Control-Allow-Headers", "Content-Type, Authorization")
      ∈ (workerFetch req engine nowMs).headers := by
  unfold workerFetch
  split_ifs <;>
    first
    | exact setCorsHeaders_mem _
    | (cases req.jsonBody with
       | error m => exact setCorsHeaders_mem _
       | ok b =>
         rcases he : engine b with r | m <;> simp only [he] <;>
           exact setCorsHeaders_mem _)

/-- C5: on POST `/graphql`, a body that is not valid JSON — and likewise a
GraphQL-engine rejection during parse/validation/setup — yields HTTP 400
with `{errors: [{message}]}`; a resolver-level error instead yields HTTP
200 with the error inside the normal GraphQL result envelope. -/
theorem post_graphql_dispatch (req : WorkerRequest)
    (engine : GqlBody → EngineOutcome) (nowMs : Nat)
    (hpath : req.pathname = "/graphql") (hmethod : req.method = "POST") :
    (∀ m, req.jsonBody = .error m →
      (workerFetch req engine nowMs).status = 400 ∧
      (workerFetch req engine nowMs).body = .json (errorsBody m)) ∧
    (∀ b m, req.jsonBody = .ok b → engine b = .thrown m →
      (workerFetch req engine nowMs).status = 400 ∧
      (workerFetch req engine nowMs).body = .json (errorsBody m)) ∧
    (∀ b m, req.jsonBody = .ok b → engine b = engineOfResolverError m →
      (workerFetch req engine nowMs).status = 200 ∧
      (workerFetch req engine nowMs).body = .json (.jobj [("data", JVal.jnull),
        ("errors", JVal.jarr [.jobj [("message", JVal.jstr m)]])])) := by
  refine ⟨fun m hm => ?_, fun b m hb he => ?_, fun b m hb he => ?_⟩
  · simp [workerFetch, hpath, hmethod, hm, setCorsHeaders_status, setCorsHeaders_body]
  · simp [workerFetch, hpath, hmethod, hb, he, setCorsHeaders_status, setCorsHeaders_body]
  · simp [workerFetch, hpath, hmethod, hb, he, engineOfResolverError,
      setCorsHeaders_status, setCorsHeaders_body]

/-- Witness for C5: a POST to `/graphql` with a malformed body gives
HTTP 400 and the `{errors: [{message}]}` body. -/
theorem post_graphql_dispatch_witness :
    (workerFetch postMalformedReq engineEx 0).status = 400 ∧
    (workerFetch postMalformedReq engineEx 0).body
      = .json (errorsBody "Unexpected end of JSON input") :=
  (post_graphql_dispatch postMalformedReq engineEx 0 rfl rfl).1
    "Unexpected end of JSON input" rfl

/-- C6 (amended): for every request whose method is not `OPTIONS`, the
dispatch layer routes as the table states: GET `/health` returns HTTP 200
with `{status: "ok", timestamp: <ISO-8601>}` where the timestamp is a
syntactically valid ISO-8601 string, and any other path returns the static
JSON description of the endpoints.  (An `OPTIONS` request to any path is
instead answered by the CORS-preflight branch with an empty 200 body.) -/
theorem workerFetch_routes (req : WorkerRequest) (engine : GqlBody → EngineOutcome)
    (nowMs : Nat) (hm : req.method ≠ "OPTIONS") :
    (req.method = "GET" → req.pathname = "/health" →
      (workerFetch req engine nowMs).status = 200 ∧
      (workerFetch req engine nowMs).body = .json (.jobj
        [("status", JVal.jstr "ok"), ("timestamp", JVal.jstr (toISOString nowMs))]) ∧
      isValidISO8601 (toISOString nowMs) = true) ∧
    (req.pathname ≠ "/graphql" → req.pathname ≠ "/health" →
      (workerFetch req engine nowMs).status = 200 ∧
      (workerFetch req engine nowMs).body = .json endpointsBody) := by
  constructor
  · intro hg hp
    refine ⟨?_, ?_, toISOString_valid nowMs⟩ <;>
      simp [workerFetch, hm, hg, hp, healthBody, setCorsHeaders_status, setCorsHeaders_body]
  · intro h1 h2
    constructor <;>
      simp [workerFetch, hm, h1, h2, setCorsHeaders_status, setCorsHeaders_body]

/-- Counterexample for C6 as stated: an `OPTIONS` request to a path other
than `/graphql` and `/health` is answered by the CORS-preflight branch with
an empty body, not with the static JSON description of the endpoints. -/
theorem workerFetch_routes_counterexample :
    (workerFetch optionsOtherReq engineEx 0).body = .empty ∧
    (workerFetch optionsOtherReq engineEx 0).body ≠ .json endpointsBody := by
  refine ⟨rfl, ?_⟩
  intro h
  have h' : RespBody.empty = RespBody.json endpointsBody := h
  cases h'

/-- Witness for C6 (amended): a GET to `/health` at clock reading `0`
returns 200 with `{status: "ok", timestamp: "1970-01-01T00:00:00.000Z"}`,
and that timestamp is ISO-8601-valid. -/
theorem workerFetch_routes_witness :
    (workerFetch healthReq engineEx 0).status = 200 ∧
    (workerFetch healthReq engineEx 0).body = .json (.jobj
      [("status", JVal.jstr "ok"), ("timestamp", JVal.jstr (toISOString 0))]) ∧
    isValidISO8601 (toISOString 0) = true :=
  (workerFetch_routes healthReq engineEx 0 (by decide)).1 rfl rfl

end Worker
